import Mathlib

/-!
Shallow embedding of `modules/planning/planner/lattice/lattice_planner.cc`
(Apollo lattice planner, one planning cycle).

Real-valued quantities (`double` in the source) are modelled as rationals,
so all arithmetic is exact.  Components that live in translation units not
present in the repository snapshot (reference-line matcher, Frenet
conversion, constraint checker, collision checker, the candidate pipeline
up to the sorted evaluator sequence, and the horizon constants of
`lattice_params.h`) are modelled from the spec as opaque parameters
gathered in `PlanEnv`.  Reads that are undefined behaviour in C++
(`std::vector::back` on an empty vector, `operator[]` past the end,
dereferencing the null pointer left by a failed `dynamic_pointer_cast`)
are modelled by `Option`, with `none` marking the undefined read.
-/

namespace LatticePlanner

/-- A sample of the discretized reference path (`common::PathPoint`). -/
structure PathPoint where
  x : ℚ
  y : ℚ
  theta : ℚ
  kappa : ℚ
  dkappa : ℚ
  s : ℚ
deriving DecidableEq

/-- A trajectory point (`common::TrajectoryPoint` with its embedded path
point flattened into the six kinematic fields plus `relative_time`). -/
structure TrajectoryPoint where
  x : ℚ
  y : ℚ
  theta : ℚ
  kappa : ℚ
  v : ℚ
  a : ℚ
  relative_time : ℚ
deriving DecidableEq

/-- Output of `CartesianFrenetConverter::frenet_to_cartesian`. -/
structure CartesianState where
  x : ℚ
  y : ℚ
  theta : ℚ
  kappa : ℚ
  v : ℚ
  a : ℚ
deriving DecidableEq

/-- A one-dimensional curve (`Curve1d`).  The `lattice` constructor models
the concrete `LatticeTrajectory1d` subclass carrying its sampled end
condition; `other` models any other concrete subclass. -/
inductive Curve1d where
  | lattice (ev : Nat → ℚ → ℚ) (len : ℚ)
      (target_position target_velocity target_time : ℚ)
  | other (ev : Nat → ℚ → ℚ) (len : ℚ)

/-- `Curve1d::Evaluate(order, param)`. -/
def Curve1d.Evaluate : Curve1d → Nat → ℚ → ℚ
  | .lattice ev _ _ _ _, o, p => ev o p
  | .other ev _, o, p => ev o p

/-- `Curve1d::ParamLength()`. -/
def Curve1d.ParamLength : Curve1d → ℚ
  | .lattice _ len _ _ _ => len
  | .other _ len => len

/-- `std::dynamic_pointer_cast<LatticeTrajectory1d>`: `some` of the target
attributes `(target_position, target_velocity, target_time)` when the curve
is the concrete lattice subclass, `none` (a null pointer) otherwise. -/
def Curve1d.asLattice : Curve1d → Option (ℚ × ℚ × ℚ)
  | .lattice _ _ p v t => some (p, v, t)
  | .other _ _ => none

/-- Modelled from the spec (the evaluator's translation unit is not in the
snapshot): the per-pair cost decomposition is the fixed four-component
sequence travel, jerk, obstacle, lateral, as read by
`top_trajectory_pair_component_cost`. -/
structure CostComponents where
  travel : ℚ
  jerk : ℚ
  obstacle : ℚ
  lateral : ℚ
deriving DecidableEq

/-- One element of the evaluator's best-first sequence: the total cost
(`top_trajectory_pair_cost`), its component decomposition, and the
(longitudinal, lateral) curve pair returned by
`next_top_trajectory_pair`. -/
structure Candidate where
  cost : ℚ
  components : CostComponents
  pair : Curve1d × Curve1d

/-- Modelled from the spec: an obstacle is an opaque external entity; the
planner only hands the list to the collision checker and the evaluator. -/
structure Obstacle where
  id : Nat
deriving DecidableEq

/-- Status codes (`common::ErrorCode`).  The source emits only `OK` and
`PLANNING_ERROR`; `CONFIG_ERROR` models the configuration-failure outcome
of the spec's error taxonomy, which the source never produces. -/
inductive ErrorCode where
  | OK
  | PLANNING_ERROR
  | CONFIG_ERROR
deriving DecidableEq

/-- `common::Status`: an error code plus a human-readable message. -/
structure Status where
  code : ErrorCode
  message : String
deriving DecidableEq

/-- `Status::OK()`. -/
def Status.ok : Status := ⟨ErrorCode.OK, ""⟩

/-- The three per-cycle rejection counters of `LatticePlanner::Plan`. -/
structure Counters where
  constraint_failure_count : Nat
  combined_constraint_failure_count : Nat
  collision_failure_count : Nat
deriving DecidableEq

/-- Fieldwise sum of two counter records. -/
def Counters.add (a b : Counters) : Counters :=
  ⟨a.constraint_failure_count + b.constraint_failure_count,
   a.combined_constraint_failure_count + b.combined_constraint_failure_count,
   a.collision_failure_count + b.collision_failure_count⟩

/-- The observable per-cycle state of `ReferenceLineInfo` that `Plan`
mutates: the installed trajectory (`SetTrajectory`), the recorded cost
(`SetCost`), the drivable flag (`SetDrivable`), plus the read-only
`PriorityCost()`. -/
structure RefLineInfo where
  trajectory : Option (List TrajectoryPoint)
  cost : ℚ
  drivable : Bool
  priorityCost : ℚ
deriving DecidableEq

/-- Modelled from the spec: the collaborators of `LatticePlanner` whose
translation units are not part of the repository snapshot — the
reference-line matcher (`ReferenceLineMatcher`, both overloads), the Frenet
converter (`CartesianFrenetConverter`), the constraint checker
(`LatticeConstraintChecker`), the collision checker (`CollisionChecker`,
constructed per cycle from the obstacle list), the whole candidate pipeline
up to the evaluator's sorted sequence (`PathTimeNeighborhood`, the decider,
`Trajectory1dGenerator`, `TrajectoryEvaluator`), and the horizon constants
of `lattice_params.h` (`planned_trajectory_time`,
`trajectory_time_resolution`). -/
structure PlanEnv where
  MatchToReferenceLineXY : List PathPoint → ℚ → ℚ → PathPoint
  MatchToReferenceLineS : List PathPoint → ℚ → PathPoint
  ComputeInitFrenetState :
    PathPoint → TrajectoryPoint → (ℚ × ℚ × ℚ) × (ℚ × ℚ × ℚ)
  frenet_to_cartesian :
    ℚ → ℚ → ℚ → ℚ → ℚ → ℚ → ℚ × ℚ × ℚ → ℚ × ℚ × ℚ → CartesianState
  IsValidTrajectoryPair : Curve1d → Curve1d → Bool
  IsValidTrajectory : List TrajectoryPoint → Bool
  InCollision : List Obstacle → List TrajectoryPoint → Bool
  evaluatorSequence :
    TrajectoryPoint → (ℚ × ℚ × ℚ) → (ℚ × ℚ × ℚ) → List Obstacle →
      List PathPoint → List Candidate
  planned_trajectory_time : ℚ
  trajectory_time_resolution : ℚ

/-- One iteration body of the `while` loop in
`LatticePlanner::CombineTrajectory`: evaluate the longitudinal state at
`t_param`, the lateral state at the arc-length offset `s - s0` where
`s0 = lon.Evaluate(0, 0.0)`, match the reference point at `s`, convert to
Cartesian (note the source passes the matched point's `rs` as the first
longitudinal condition), and stamp
`relative_time = t_param + init_relative_time`. -/
def combinePoint (env : PlanEnv) (reference_line : List PathPoint)
    (lon lat : Curve1d) (init_relative_time t_param : ℚ) : TrajectoryPoint :=
  let s0 := lon.Evaluate 0 0
  let s := lon.Evaluate 0 t_param
  let s_dot := lon.Evaluate 1 t_param
  let s_ddot := lon.Evaluate 2 t_param
  let s_param := s - s0
  let d := lat.Evaluate 0 s_param
  let d_prime := lat.Evaluate 1 s_param
  let d_pprime := lat.Evaluate 2 s_param
  let m := env.MatchToReferenceLineS reference_line s
  let c := env.frenet_to_cartesian m.s m.x m.y m.theta m.kappa m.dkappa
      (m.s, s_dot, s_ddot) (d, d_prime, d_pprime)
  { x := c.x, y := c.y, theta := c.theta, kappa := c.kappa, v := c.v,
    a := c.a, relative_time := t_param + init_relative_time }

/-- The `while (t_param < planned_trajectory_time)` loop of
`CombineTrajectory`, with explicit fuel bounding the number of iterations
(the C++ loop runs at most
`⌈planned_trajectory_time / trajectory_time_resolution⌉` times when the
resolution is positive, since `t_param` advances by the resolution on every
iteration). -/
def combineLoop (env : PlanEnv) (reference_line : List PathPoint)
    (s_ref_max : ℚ) (lon lat : Curve1d) (init_relative_time : ℚ) :
    Nat → ℚ → List TrajectoryPoint
  | 0, _ => []
  | fuel + 1, t_param =>
    if t_param < env.planned_trajectory_time then
      if lon.Evaluate 0 t_param > s_ref_max then []
      else
        combinePoint env reference_line lon lat init_relative_time t_param ::
          combineLoop env reference_line s_ref_max lon lat init_relative_time
            fuel (t_param + env.trajectory_time_resolution)
    else []

/-- `CombineTrajectory` after the initial reads of `s0` and `s_ref_max`:
the loop started at `t_param = 0`. -/
def combineCore (env : PlanEnv) (reference_line : List PathPoint)
    (s_ref_max : ℚ) (lon lat : Curve1d) (init_relative_time : ℚ) :
    List TrajectoryPoint :=
  combineLoop env reference_line s_ref_max lon lat init_relative_time
    (Nat.ceil (env.planned_trajectory_time / env.trajectory_time_resolution))
    0

/-- `LatticePlanner::CombineTrajectory`.  Reading
`reference_line.back().s()` on an empty reference line is undefined
behaviour, modelled as `none`. -/
def CombineTrajectory (env : PlanEnv) (reference_line : List PathPoint)
    (lon lat : Curve1d) (init_relative_time : ℚ) :
    Option (List TrajectoryPoint) :=
  match reference_line.getLast? with
  | none => none
  | some lastPt =>
    some (combineCore env reference_line lastPt.s lon lat init_relative_time)

/-- The success-path debug loop
`for (uint i = 0; i < n; ++i) ... combined_trajectory_points[i]`:
`none` when some read is past the end (undefined behaviour of vector
`operator[]`). -/
def readPoints (l : List TrajectoryPoint) : Nat → Option Unit
  | 0 => some ()
  | k + 1 =>
    match readPoints l k, l.get? k with
    | some _, some _ => some ()
    | _, _ => none

/-- The candidate-search loop of `LatticePlanner::Plan` (step 7 of the
source).  Each iteration reads the top cost and its components, pops the
top pair, applies the 1D pair pre-filter, combines the pair, applies the
combined-trajectory constraint check, then the collision check — bumping
the matching rejection counter and continuing on each failure.  The first
surviving pair is installed (`SetTrajectory`, `SetCost`, `SetDrivable`),
the longitudinal curve is downcast to `LatticeTrajectory1d` (a failed cast
only logs and the target attributes are still read through the null
pointer: `none`), the first ten combined points are read for the debug log,
and the loop breaks.  The auto-tuning block computes only values that do
not affect the returned state and is therefore not modelled. -/
def planLoop (env : PlanEnv) (obstacles : List Obstacle)
    (reference_line : List PathPoint) (init_relative_time : ℚ) :
    List Candidate → Counters → RefLineInfo → Nat →
    Option (Counters × RefLineInfo × Nat)
  | [], cnt, info, num_lattice_traj => some (cnt, info, num_lattice_traj)
  | c :: rest, cnt, info, num_lattice_traj =>
    let trajectory_pair_cost := c.cost
    let trajectory_pair := c.pair
    if !(env.IsValidTrajectoryPair trajectory_pair.2 trajectory_pair.1) then
      planLoop env obstacles reference_line init_relative_time rest
        { cnt with constraint_failure_count :=
            cnt.constraint_failure_count + 1 } info num_lattice_traj
    else
      match CombineTrajectory env reference_line trajectory_pair.1
          trajectory_pair.2 init_relative_time with
      | none => none
      | some combined_trajectory =>
        if !(env.IsValidTrajectory combined_trajectory) then
          planLoop env obstacles reference_line init_relative_time rest
            { cnt with combined_constraint_failure_count :=
                cnt.combined_constraint_failure_count + 1 } info
            num_lattice_traj
        else if env.InCollision obstacles combined_trajectory then
          planLoop env obstacles reference_line init_relative_time rest
            { cnt with collision_failure_count :=
                cnt.collision_failure_count + 1 } info num_lattice_traj
        else
          let info' := { info with
            trajectory := some combined_trajectory,
            cost := info.priorityCost + trajectory_pair_cost,
            drivable := true }
          match trajectory_pair.1.asLattice with
          | none => none
          | some _tgt =>
            match readPoints combined_trajectory 10 with
            | none => none
            | some _ => some (cnt, info', num_lattice_traj + 1)

/-- The candidate sequence exactly as `Plan` obtains it: match the init
point onto the reference line, compute the init Frenet state, and run the
(spec-modelled) pipeline up to the evaluator's sorted sequence. -/
def planCandidates (env : PlanEnv) (planning_init_point : TrajectoryPoint)
    (obstacles : List Obstacle) (reference_line : List PathPoint) :
    List Candidate :=
  let matched_point := env.MatchToReferenceLineXY reference_line
    planning_init_point.x planning_init_point.y
  let init := env.ComputeInitFrenetState matched_point planning_init_point
  env.evaluatorSequence planning_init_point init.1 init.2 obstacles
    reference_line

/-- `LatticePlanner::Plan`: one planning cycle.  Returns the final status,
the mutated `ReferenceLineInfo` state and the three rejection counters
(emitted by the source through its end-of-cycle log lines); `none` models a
run that hits an undefined C++ read.  The process-lifetime cycle counters
are diagnostics only and are not modelled. -/
def Plan (env : PlanEnv) (planning_init_point : TrajectoryPoint)
    (obstacles : List Obstacle) (reference_line : List PathPoint)
    (info : RefLineInfo) : Option (Status × RefLineInfo × Counters) :=
  let cands := planCandidates env planning_init_point obstacles reference_line
  match planLoop env obstacles reference_line
      planning_init_point.relative_time cands ⟨0, 0, 0⟩ info 0 with
  | none => none
  | some (cnt, info', num_lattice_traj) =>
    if 0 < num_lattice_traj then
      some (Status.ok, { info' with drivable := true }, cnt)
    else
      some (⟨ErrorCode.PLANNING_ERROR, "No feasible trajectories"⟩, info',
        cnt)

/-- Which of the three filters of the search loop rejects a candidate, in
the source's evaluation order: the 1D pair pre-filter first, then the
combined-trajectory constraint check, then the collision check. -/
inductive RejKind where
  | constraint
  | combinedConstraint
  | collision
deriving DecidableEq

/-- Bump the rejection counter matching the rejecting filter. -/
def RejKind.bump : RejKind → Counters → Counters
  | .constraint, cnt =>
    { cnt with constraint_failure_count := cnt.constraint_failure_count + 1 }
  | .combinedConstraint, cnt =>
    { cnt with combined_constraint_failure_count :=
        cnt.combined_constraint_failure_count + 1 }
  | .collision, cnt =>
    { cnt with collision_failure_count := cnt.collision_failure_count + 1 }

/-- The first filter (in the source's order) that rejects a candidate, or
`none` when the candidate survives all three.  `s_ref_max` is the last
reference point's arc-length, so this is meaningful exactly when the
reference line is non-empty. -/
def FirstRejector (env : PlanEnv) (obstacles : List Obstacle)
    (reference_line : List PathPoint) (s_ref_max init_relative_time : ℚ)
    (c : Candidate) : Option RejKind :=
  if !(env.IsValidTrajectoryPair c.pair.2 c.pair.1) then
    some .constraint
  else
    let combined := combineCore env reference_line s_ref_max c.pair.1
      c.pair.2 init_relative_time
    if !(env.IsValidTrajectory combined) then some .combinedConstraint
    else if env.InCollision obstacles combined then some .collision
    else none

/-- The counter tally produced by a run of candidates that all get
rejected: one bump per candidate, chosen by its first rejecting filter. -/
def countRej (env : PlanEnv) (obstacles : List Obstacle)
    (reference_line : List PathPoint) (s_ref_max init_relative_time : ℚ) :
    List Candidate → Counters
  | [] => ⟨0, 0, 0⟩
  | c :: rest =>
    match FirstRejector env obstacles reference_line s_ref_max
        init_relative_time c with
    | some k => k.bump (countRej env obstacles reference_line s_ref_max
        init_relative_time rest)
    | none => countRej env obstacles reference_line s_ref_max
        init_relative_time rest

/-- Concrete inputs used by the witnesses below. -/
def zeroPathPoint : PathPoint := ⟨0, 0, 0, 0, 0, 0⟩

/-- A reference point whose arc-length `100` is far beyond every sampled
longitudinal position of the witness curves. -/
def farPathPoint : PathPoint := ⟨0, 0, 0, 0, 0, 100⟩

/-- A one-point reference line used by the witnesses. -/
def wRefline : List PathPoint := [farPathPoint]

/-- A lattice curve whose position grows linearly in its parameter. -/
def rampCurve : Curve1d :=
  Curve1d.lattice (fun o t => if o = 0 then t else 0) 10 10 1 10

/-- A lattice curve that is identically zero. -/
def flatCurve : Curve1d := Curve1d.lattice (fun _ _ => 0) 10 0 0 0

/-- A non-lattice curve, for exercising the failed downcast. -/
def otherCurve : Curve1d := Curve1d.other (fun _ _ => 0) 10

/-- A candidate whose longitudinal curve is of the concrete lattice type. -/
def candOk : Candidate := ⟨5, ⟨1, 2, 1, 1⟩, (rampCurve, flatCurve)⟩

/-- A candidate whose longitudinal curve is not of the lattice type. -/
def candOther : Candidate := ⟨5, ⟨1, 2, 1, 1⟩, (otherCurve, flatCurve)⟩

/-- A planning init point at the origin with relative time zero. -/
def wInit : TrajectoryPoint := ⟨0, 0, 0, 0, 0, 0, 0⟩

/-- An initial reference-line-info state. -/
def wInfo : RefLineInfo := ⟨none, 0, false, 0⟩

/-- A concrete environment: all checks pass, all collaborators are
constant, the evaluator sequence is `cands`, horizon `T`, resolution
`dt`. -/
def wEnv (T dt : ℚ) (cands : List Candidate) : PlanEnv :=
  { MatchToReferenceLineXY := fun _ _ _ => zeroPathPoint
    MatchToReferenceLineS := fun _ _ => zeroPathPoint
    ComputeInitFrenetState := fun _ _ => ((0, 0, 0), (0, 0, 0))
    frenet_to_cartesian := fun _ _ _ _ _ _ _ _ => ⟨0, 0, 0, 0, 0, 0⟩
    IsValidTrajectoryPair := fun _ _ => true
    IsValidTrajectory := fun _ => true
    InCollision := fun _ _ => false
    evaluatorSequence := fun _ _ _ _ _ => cands
    planned_trajectory_time := T
    trajectory_time_resolution := dt }

/-- A variant of `wEnv` whose 1D pair pre-filter rejects everything. -/
def wEnvReject : PlanEnv :=
  { wEnv 10 1 [candOk] with IsValidTrajectoryPair := fun _ _ => false }

/-- Proof device: the list of points the combine loop appends when it is
about to run step index `i` (so `t_param = i * resolution`) with `k` loop
iterations remaining before the time horizon is reached. -/
def combinePoints (env : PlanEnv) (reference_line : List PathPoint)
    (s_ref_max : ℚ) (lon lat : Curve1d) (init_relative_time : ℚ) :
    Nat → Nat → List TrajectoryPoint
  | _, 0 => []
  | i, k + 1 =>
    if lon.Evaluate 0 ((i : ℚ) * env.trajectory_time_resolution) > s_ref_max
    then []
    else
      combinePoint env reference_line lon lat init_relative_time
        ((i : ℚ) * env.trajectory_time_resolution) ::
        combinePoints env reference_line s_ref_max lon lat init_relative_time
          (i + 1) k

lemma step_lt_iff (env : PlanEnv)
    (hdt : 0 < env.trajectory_time_resolution) (i : Nat) :
    ((i : ℚ) * env.trajectory_time_resolution <
        env.planned_trajectory_time) ↔
      i < Nat.ceil
        (env.planned_trajectory_time / env.trajectory_time_resolution) := by
  rw [Nat.lt_ceil, lt_div_iff₀ hdt]

lemma combineLoop_eq_points (env : PlanEnv)
    (reference_line : List PathPoint) (s_ref_max : ℚ) (lon lat : Curve1d)
    (init_relative_time : ℚ) (hdt : 0 < env.trajectory_time_resolution) :
    ∀ fuel i,
      Nat.ceil
          (env.planned_trajectory_time / env.trajectory_time_resolution) ≤
        i + fuel →
      combineLoop env reference_line s_ref_max lon lat init_relative_time
          fuel ((i : ℚ) * env.trajectory_time_resolution) =
        combinePoints env reference_line s_ref_max lon lat
          init_relative_time i
          (Nat.ceil
            (env.planned_trajectory_time / env.trajectory_time_resolution)
            - i) := by
  intro fuel
  induction fuel with
  | zero =>
    intro i hi
    have h0 :
        Nat.ceil
          (env.planned_trajectory_time / env.trajectory_time_resolution)
          - i = 0 := by omega
    rw [h0]
    rfl
  | succ fuel ih =>
    intro i hi
    by_cases hN :
        i < Nat.ceil
          (env.planned_trajectory_time / env.trajectory_time_resolution)
    · have hcond :
          (i : ℚ) * env.trajectory_time_resolution <
            env.planned_trajectory_time := (step_lt_iff env hdt i).mpr hN
      have hk :
          Nat.ceil
            (env.planned_trajectory_time / env.trajectory_time_resolution)
            - i =
          (Nat.ceil
            (env.planned_trajectory_time / env.trajectory_time_resolution)
            - (i + 1)) + 1 := by omega
      rw [hk]
      rw [combineLoop, combinePoints]
      rw [if_pos hcond]
      by_cases hbreak :
          lon.Evaluate 0 ((i : ℚ) * env.trajectory_time_resolution) >
            s_ref_max
      · rw [if_pos hbreak, if_pos hbreak]
      · rw [if_neg hbreak, if_neg hbreak]
        have hstep :
            (i : ℚ) * env.trajectory_time_resolution +
                env.trajectory_time_resolution =
              ((i + 1 : ℕ) : ℚ) * env.trajectory_time_resolution := by
          push_cast
          ring
        rw [hstep, ih (i + 1) (by omega)]
    · have hcond :
          ¬ ((i : ℚ) * env.trajectory_time_resolution <
            env.planned_trajectory_time) := by
        intro hc
        exact hN ((step_lt_iff env hdt i).mp hc)
      have h0 :
          Nat.ceil
            (env.planned_trajectory_time / env.trajectory_time_resolution)
            - i = 0 := by omega
      rw [h0, combineLoop, if_neg hcond]
      rfl

lemma combineCore_eq (env : PlanEnv) (reference_line : List PathPoint)
    (s_ref_max : ℚ) (lon lat : Curve1d) (init_relative_time : ℚ)
    (hdt : 0 < env.trajectory_time_resolution) :
    combineCore env reference_line s_ref_max lon lat init_relative_time =
      combinePoints env reference_line s_ref_max lon lat init_relative_time
        0
        (Nat.ceil
          (env.planned_trajectory_time / env.trajectory_time_resolution)) := by
  have h := combineLoop_eq_points env reference_line s_ref_max lon lat
    init_relative_time hdt
    (Nat.ceil (env.planned_trajectory_time / env.trajectory_time_resolution))
    0 (by omega)
  simpa [combineCore] using h

lemma combinePoints_length_le (env : PlanEnv)
    (reference_line : List PathPoint) (s_ref_max : ℚ) (lon lat : Curve1d)
    (init_relative_time : ℚ) :
    ∀ k i,
      (combinePoints env reference_line s_ref_max lon lat init_relative_time
        i k).length ≤ k := by
  intro k
  induction k with
  | zero => intro i; simp [combinePoints]
  | succ k ih =>
    intro i
    rw [combinePoints]
    by_cases hb :
        lon.Evaluate 0 ((i : ℚ) * env.trajectory_time_resolution) > s_ref_max
    · rw [if_pos hb]
      simp
    · rw [if_neg hb]
      simpa using Nat.succ_le_succ (ih (i + 1))

lemma combinePoints_get (env : PlanEnv) (reference_line : List PathPoint)
    (s_ref_max : ℚ) (lon lat : Curve1d) (init_relative_time : ℚ) :
    ∀ k i j (h : j <
      (combinePoints env reference_line s_ref_max lon lat init_relative_time
        i k).length),
      (combinePoints env reference_line s_ref_max lon lat init_relative_time
        i k).get ⟨j, h⟩ =
        combinePoint env reference_line lon lat init_relative_time
          (((i + j : ℕ) : ℚ) * env.trajectory_time_resolution) := by
  intro k
  induction k with
  | zero => intro i j h; simp [combinePoints] at h
  | succ k ih =>
    intro i j h
    by_cases hb :
        lon.Evaluate 0 ((i : ℚ) * env.trajectory_time_resolution) > s_ref_max
    · rw [combinePoints, if_pos hb] at h
      simp at h
    · have hcons : combinePoints env reference_line s_ref_max lon lat
          init_relative_time i (k + 1) =
          combinePoint env reference_line lon lat init_relative_time
            ((i : ℚ) * env.trajectory_time_resolution) ::
            combinePoints env reference_line s_ref_max lon lat
              init_relative_time (i + 1) k := by
        rw [combinePoints, if_neg hb]
      match j with
      | 0 =>
        rw [List.get_eq_getElem, getElem_congr_coll hcons]
        rw [List.getElem_cons_zero]
        norm_num
      | j + 1 =>
        have hlen : j <
            (combinePoints env reference_line s_ref_max lon lat
              init_relative_time (i + 1) k).length := by
          rw [hcons] at h
          simpa using Nat.lt_of_succ_lt_succ h
        rw [List.get_eq_getElem, getElem_congr_coll hcons]
        rw [List.getElem_cons_succ]
        have hrec := ih (i + 1) j hlen
        rw [List.get_eq_getElem] at hrec
        have harith : i + 1 + j = i + (j + 1) := by omega
        rw [harith] at hrec
        exact hrec

lemma combinePoints_break (env : PlanEnv) (reference_line : List PathPoint)
    (s_ref_max : ℚ) (lon lat : Curve1d) (init_relative_time : ℚ) :
    ∀ k i,
      (combinePoints env reference_line s_ref_max lon lat init_relative_time
        i k).length < k →
      s_ref_max <
        lon.Evaluate 0
          (((i + (combinePoints env reference_line s_ref_max lon lat
            init_relative_time i k).length : ℕ) : ℚ) *
            env.trajectory_time_resolution) := by
  intro k
  induction k with
  | zero => intro i h; omega
  | succ k ih =>
    intro i h
    by_cases hb :
        lon.Evaluate 0 ((i : ℚ) * env.trajectory_time_resolution) > s_ref_max
    · rw [combinePoints, if_pos hb]
      simpa using hb
    · rw [combinePoints, if_neg hb] at h ⊢
      have hlen :
          (combinePoints env reference_line s_ref_max lon lat
            init_relative_time (i + 1) k).length < k := by
        simpa using Nat.lt_of_succ_lt_succ h
      have := ih (i + 1) hlen
      simp only [List.length_cons]
      have harith :
          (i + ((combinePoints env reference_line s_ref_max lon lat
            init_relative_time (i + 1) k).length + 1) : ℕ) =
          ((i + 1) + (combinePoints env reference_line s_ref_max lon lat
            init_relative_time (i + 1) k).length : ℕ) := by omega
      rw [harith]
      exact this

lemma combinePoint_relative_time (env : PlanEnv)
    (reference_line : List PathPoint) (lon lat : Curve1d)
    (init_relative_time t_param : ℚ) :
    (combinePoint env reference_line lon lat init_relative_time
      t_param).relative_time = t_param + init_relative_time := rfl

/-- Helper: element `j` of a trajectory produced by `CombineTrajectory` is
the loop body evaluated at `t_param = j * resolution`. -/
lemma combineTrajectory_get (env : PlanEnv)
    (reference_line : List PathPoint) (lon lat : Curve1d)
    (init_relative_time : ℚ) (tr : List TrajectoryPoint)
    (hdt : 0 < env.trajectory_time_resolution)
    (hcomb : CombineTrajectory env reference_line lon lat
      init_relative_time = some tr) :
    ∀ j (h : j < tr.length),
      tr.get ⟨j, h⟩ =
        combinePoint env reference_line lon lat init_relative_time
          ((j : ℚ) * env.trajectory_time_resolution) := by
  match hp : reference_line.getLast? with
  | none => rw [CombineTrajectory, hp] at hcomb; exact absurd hcomb (by simp)
  | some p =>
    rw [CombineTrajectory, hp] at hcomb
    injection hcomb with h
    subst h
    intro j hj
    have hcc := combineCore_eq env reference_line p.s lon lat
      init_relative_time hdt
    have h' : j < (combinePoints env reference_line p.s lon lat
        init_relative_time 0
        (Nat.ceil (env.planned_trajectory_time /
          env.trajectory_time_resolution))).length := by
      rw [← hcc]
      exact hj
    have hg := combinePoints_get env reference_line p.s lon lat
      init_relative_time
      (Nat.ceil (env.planned_trajectory_time /
        env.trajectory_time_resolution)) 0 j h'
    simp only [Nat.zero_add] at hg
    rw [List.get_eq_getElem] at hg ⊢
    rw [getElem_congr_coll hcc]
    exact hg

/-- C3: `CombineTrajectory` output is never longer than
`planned_trajectory_time / trajectory_time_resolution` points; it is
shorter than that only when the longitudinal position at the terminating
step exceeded the reference path's maximum arc-length; and its points'
`relative_time` advances by exactly the fixed resolution per step, hence is
strictly increasing. -/
theorem combine_horizon (env : PlanEnv) (reference_line : List PathPoint)
    (lon lat : Curve1d) (init_relative_time : ℚ) (p : PathPoint) (N : Nat)
    (tr : List TrajectoryPoint)
    (hdt : 0 < env.trajectory_time_resolution)
    (hT : env.planned_trajectory_time =
      (N : ℚ) * env.trajectory_time_resolution)
    (hlast : reference_line.getLast? = some p)
    (hcomb : CombineTrajectory env reference_line lon lat
      init_relative_time = some tr) :
    tr.length ≤ N ∧
    (tr.length < N →
      p.s < lon.Evaluate 0
        ((tr.length : ℚ) * env.trajectory_time_resolution)) ∧
    (∀ j (h : j + 1 < tr.length),
      (tr.get ⟨j + 1, h⟩).relative_time =
        (tr.get ⟨j, Nat.lt_of_succ_lt h⟩).relative_time +
          env.trajectory_time_resolution) ∧
    (∀ j k (hj : j < k) (hk : k < tr.length),
      (tr.get ⟨j, hj.trans hk⟩).relative_time <
        (tr.get ⟨k, hk⟩).relative_time) := by
  have hceil :
      Nat.ceil
        (env.planned_trajectory_time / env.trajectory_time_resolution) =
      N := by
    rw [hT, mul_div_cancel_right₀ _ (ne_of_gt hdt), Nat.ceil_natCast]
  have htr : tr = combinePoints env reference_line p.s lon lat
      init_relative_time 0 N := by
    rw [CombineTrajectory, hlast] at hcomb
    injection hcomb with h
    rw [← h, combineCore_eq env reference_line p.s lon lat
      init_relative_time hdt, hceil]
  have hget := combineTrajectory_get env reference_line lon lat
    init_relative_time tr hdt hcomb
  refine ⟨?_, ?_, ?_, ?_⟩
  · rw [htr]
    exact combinePoints_length_le env reference_line p.s lon lat
      init_relative_time N 0
  · intro hlt
    have h' : (combinePoints env reference_line p.s lon lat
        init_relative_time 0 N).length < N := by rw [← htr]; exact hlt
    have := combinePoints_break env reference_line p.s lon lat
      init_relative_time N 0 h'
    simp only [Nat.zero_add] at this
    rw [htr]
    exact this
  · intro j h
    rw [hget (j + 1) h, hget j (Nat.lt_of_succ_lt h)]
    rw [combinePoint_relative_time, combinePoint_relative_time]
    push_cast
    ring
  · intro j k hj hk
    rw [hget j (hj.trans hk), hget k hk]
    rw [combinePoint_relative_time, combinePoint_relative_time]
    have : (j : ℚ) * env.trajectory_time_resolution <
        (k : ℚ) * env.trajectory_time_resolution := by
      apply mul_lt_mul_of_pos_right _ hdt
      exact_mod_cast hj
    linarith

/-- C4: at every step of `CombineTrajectory`, the lateral curve is
evaluated at the parameter `s - s0`, where `s` is the longitudinal
position at the current time parameter and `s0 = lon.Evaluate(0, 0.0)` is
the longitudinal position at time zero — arc-length indexing relative to
the initial longitudinal position, not the current sampled `s`. -/
theorem combine_lateral_param (env : PlanEnv)
    (reference_line : List PathPoint) (lon lat : Curve1d)
    (init_relative_time : ℚ) (tr : List TrajectoryPoint)
    (hdt : 0 < env.trajectory_time_resolution)
    (hcomb : CombineTrajectory env reference_line lon lat
      init_relative_time = some tr) :
    ∀ j (h : j < tr.length),
      tr.get ⟨j, h⟩ =
        (let t_param : ℚ := (j : ℚ) * env.trajectory_time_resolution
         let s := lon.Evaluate 0 t_param
         let s_param := s - lon.Evaluate 0 0
         let d := lat.Evaluate 0 s_param
         let d_prime := lat.Evaluate 1 s_param
         let d_pprime := lat.Evaluate 2 s_param
         let m := env.MatchToReferenceLineS reference_line s
         let c := env.frenet_to_cartesian m.s m.x m.y m.theta m.kappa
             m.dkappa (m.s, lon.Evaluate 1 t_param, lon.Evaluate 2 t_param)
             (d, d_prime, d_pprime)
         { x := c.x, y := c.y, theta := c.theta, kappa := c.kappa,
           v := c.v, a := c.a,
           relative_time := t_param + init_relative_time }) := by
  intro j hj
  rw [combineTrajectory_get env reference_line lon lat init_relative_time
    tr hdt hcomb j hj]
  rfl

/-- C6: for every non-empty trajectory produced by `CombineTrajectory`,
the first point's `relative_time` equals the `init_relative_time`
argument: the first point is appended at time parameter `0` and each
point's `relative_time` is its time parameter plus `init_relative_time`. -/
theorem combine_first_relative_time (env : PlanEnv)
    (reference_line : List PathPoint) (lon lat : Curve1d)
    (init_relative_time : ℚ) (tr : List TrajectoryPoint)
    (hdt : 0 < env.trajectory_time_resolution)
    (hcomb : CombineTrajectory env reference_line lon lat
      init_relative_time = some tr)
    (h0 : 0 < tr.length) :
    (tr.get ⟨0, h0⟩).relative_time = init_relative_time := by
  rw [combineTrajectory_get env reference_line lon lat init_relative_time
    tr hdt hcomb 0 h0]
  rw [combinePoint_relative_time]
  simp

lemma counters_add_zero (a : Counters) : Counters.add a ⟨0, 0, 0⟩ = a := by
  cases a
  simp [Counters.add]

lemma counters_zero_add (b : Counters) : Counters.add ⟨0, 0, 0⟩ b = b := by
  cases b
  simp [Counters.add]

lemma bump_add (k : RejKind) (a b : Counters) :
    Counters.add (k.bump a) b = Counters.add a (k.bump b) := by
  cases k <;> cases a <;> cases b <;>
    simp [RejKind.bump, Counters.add, Counters.mk.injEq] <;> omega

/-- One-step unfolding of the search loop on a non-empty candidate list. -/
lemma planLoop_cons (env : PlanEnv) (obstacles : List Obstacle)
    (reference_line : List PathPoint) (init_relative_time : ℚ)
    (c : Candidate) (rest : List Candidate) (cnt : Counters)
    (info : RefLineInfo) (n : Nat) :
    planLoop env obstacles reference_line init_relative_time (c :: rest) cnt
        info n =
      if !(env.IsValidTrajectoryPair c.pair.2 c.pair.1) then
        planLoop env obstacles reference_line init_relative_time rest
          { cnt with constraint_failure_count :=
              cnt.constraint_failure_count + 1 } info n
      else
        match CombineTrajectory env reference_line c.pair.1 c.pair.2
            init_relative_time with
        | none => none
        | some combined_trajectory =>
          if !(env.IsValidTrajectory combined_trajectory) then
            planLoop env obstacles reference_line init_relative_time rest
              { cnt with combined_constraint_failure_count :=
                  cnt.combined_constraint_failure_count + 1 } info n
          else if env.InCollision obstacles combined_trajectory then
            planLoop env obstacles reference_line init_relative_time rest
              { cnt with collision_failure_count :=
                  cnt.collision_failure_count + 1 } info n
          else
            match c.pair.1.asLattice with
            | none => none
            | some _tgt =>
              match readPoints combined_trajectory 10 with
              | none => none
              | some _ => some (cnt,
                  { info with
                    trajectory := some combined_trajectory,
                    cost := info.priorityCost + c.cost,
                    drivable := true },
                  n + 1) := rfl

lemma combineTrajectory_eq_core (env : PlanEnv)
    (reference_line : List PathPoint) (lon lat : Curve1d)
    (init_relative_time : ℚ) (p : PathPoint)
    (hlast : reference_line.getLast? = some p) :
    CombineTrajectory env reference_line lon lat init_relative_time =
      some (combineCore env reference_line p.s lon lat
        init_relative_time) := by
  rw [CombineTrajectory, hlast]

lemma firstRejector_none_iff (env : PlanEnv) (obstacles : List Obstacle)
    (reference_line : List PathPoint) (s_ref_max init_relative_time : ℚ)
    (c : Candidate) :
    FirstRejector env obstacles reference_line s_ref_max init_relative_time
        c = none ↔
      env.IsValidTrajectoryPair c.pair.2 c.pair.1 = true ∧
      env.IsValidTrajectory (combineCore env reference_line s_ref_max
        c.pair.1 c.pair.2 init_relative_time) = true ∧
      env.InCollision obstacles (combineCore env reference_line s_ref_max
        c.pair.1 c.pair.2 init_relative_time) = false := by
  cases h1 : env.IsValidTrajectoryPair c.pair.2 c.pair.1 with
  | false => simp [FirstRejector, h1]
  | true =>
    cases h2 : env.IsValidTrajectory (combineCore env reference_line
        s_ref_max c.pair.1 c.pair.2 init_relative_time) with
    | false => simp [FirstRejector, h1, h2]
    | true =>
      cases h3 : env.InCollision obstacles (combineCore env reference_line
          s_ref_max c.pair.1 c.pair.2 init_relative_time) with
      | false => simp [FirstRejector, h1, h2, h3]
      | true => simp [FirstRejector, h1, h2, h3]

lemma planLoop_cons_prefail (env : PlanEnv) (obstacles : List Obstacle)
    (reference_line : List PathPoint) (init_relative_time : ℚ)
    (c : Candidate) (rest : List Candidate) (cnt : Counters)
    (info : RefLineInfo) (n : Nat)
    (h1 : env.IsValidTrajectoryPair c.pair.2 c.pair.1 = false) :
    planLoop env obstacles reference_line init_relative_time (c :: rest) cnt
        info n =
      planLoop env obstacles reference_line init_relative_time rest
        { cnt with constraint_failure_count :=
            cnt.constraint_failure_count + 1 } info n := by
  rw [planLoop_cons]
  simp [h1]

lemma planLoop_cons_combined (env : PlanEnv) (obstacles : List Obstacle)
    (reference_line : List PathPoint) (init_relative_time : ℚ)
    (c : Candidate) (rest : List Candidate) (cnt : Counters)
    (info : RefLineInfo) (n : Nat) (p : PathPoint)
    (hlast : reference_line.getLast? = some p)
    (h1 : env.IsValidTrajectoryPair c.pair.2 c.pair.1 = true)
    (h2 : env.IsValidTrajectory (combineCore env reference_line p.s c.pair.1
      c.pair.2 init_relative_time) = false) :
    planLoop env obstacles reference_line init_relative_time (c :: rest) cnt
        info n =
      planLoop env obstacles reference_line init_relative_time rest
        { cnt with combined_constraint_failure_count :=
            cnt.combined_constraint_failure_count + 1 } info n := by
  rw [planLoop_cons, combineTrajectory_eq_core env reference_line c.pair.1
    c.pair.2 init_relative_time p hlast]
  simp [h1, h2]

lemma planLoop_cons_collision (env : PlanEnv) (obstacles : List Obstacle)
    (reference_line : List PathPoint) (init_relative_time : ℚ)
    (c : Candidate) (rest : List Candidate) (cnt : Counters)
    (info : RefLineInfo) (n : Nat) (p : PathPoint)
    (hlast : reference_line.getLast? = some p)
    (h1 : env.IsValidTrajectoryPair c.pair.2 c.pair.1 = true)
    (h2 : env.IsValidTrajectory (combineCore env reference_line p.s c.pair.1
      c.pair.2 init_relative_time) = true)
    (h3 : env.InCollision obstacles (combineCore env reference_line p.s
      c.pair.1 c.pair.2 init_relative_time) = true) :
    planLoop env obstacles reference_line init_relative_time (c :: rest) cnt
        info n =
      planLoop env obstacles reference_line init_relative_time rest
        { cnt with collision_failure_count :=
            cnt.collision_failure_count + 1 } info n := by
  rw [planLoop_cons, combineTrajectory_eq_core env reference_line c.pair.1
    c.pair.2 init_relative_time p hlast]
  simp [h1, h2, h3]

lemma planLoop_cons_survive_castfail (env : PlanEnv)
    (obstacles : List Obstacle) (reference_line : List PathPoint)
    (init_relative_time : ℚ) (c : Candidate) (rest : List Candidate)
    (cnt : Counters) (info : RefLineInfo) (n : Nat) (p : PathPoint)
    (hlast : reference_line.getLast? = some p)
    (hc : FirstRejector env obstacles reference_line p.s init_relative_time
      c = none)
    (hcast : c.pair.1.asLattice = none) :
    planLoop env obstacles reference_line init_relative_time (c :: rest) cnt
        info n = none := by
  obtain ⟨h1, h2, h3⟩ := (firstRejector_none_iff env obstacles
    reference_line p.s init_relative_time c).mp hc
  rw [planLoop_cons, combineTrajectory_eq_core env reference_line c.pair.1
    c.pair.2 init_relative_time p hlast]
  simp [h1, h2, h3, hcast]

lemma planLoop_cons_survive_readfail (env : PlanEnv)
    (obstacles : List Obstacle) (reference_line : List PathPoint)
    (init_relative_time : ℚ) (c : Candidate) (rest : List Candidate)
    (cnt : Counters) (info : RefLineInfo) (n : Nat) (p : PathPoint)
    (tgt : ℚ × ℚ × ℚ)
    (hlast : reference_line.getLast? = some p)
    (hc : FirstRejector env obstacles reference_line p.s init_relative_time
      c = none)
    (hcast : c.pair.1.asLattice = some tgt)
    (hread : readPoints (combineCore env reference_line p.s c.pair.1
      c.pair.2 init_relative_time) 10 = none) :
    planLoop env obstacles reference_line init_relative_time (c :: rest) cnt
        info n = none := by
  obtain ⟨h1, h2, h3⟩ := (firstRejector_none_iff env obstacles
    reference_line p.s init_relative_time c).mp hc
  rw [planLoop_cons, combineTrajectory_eq_core env reference_line c.pair.1
    c.pair.2 init_relative_time p hlast]
  simp [h1, h2, h3, hcast, hread]

lemma planLoop_cons_survive_ok (env : PlanEnv) (obstacles : List Obstacle)
    (reference_line : List PathPoint) (init_relative_time : ℚ)
    (c : Candidate) (rest : List Candidate) (cnt : Counters)
    (info : RefLineInfo) (n : Nat) (p : PathPoint) (tgt : ℚ × ℚ × ℚ)
    (hlast : reference_line.getLast? = some p)
    (hc : FirstRejector env obstacles reference_line p.s init_relative_time
      c = none)
    (hcast : c.pair.1.asLattice = some tgt)
    (hread : readPoints (combineCore env reference_line p.s c.pair.1
      c.pair.2 init_relative_time) 10 = some ()) :
    planLoop env obstacles reference_line init_relative_time (c :: rest) cnt
        info n =
      some (cnt,
        { info with
          trajectory := some (combineCore env reference_line p.s c.pair.1
            c.pair.2 init_relative_time),
          cost := info.priorityCost + c.cost,
          drivable := true },
        n + 1) := by
  obtain ⟨h1, h2, h3⟩ := (firstRejector_none_iff env obstacles
    reference_line p.s init_relative_time c).mp hc
  rw [planLoop_cons, combineTrajectory_eq_core env reference_line c.pair.1
    c.pair.2 init_relative_time p hlast]
  simp [h1, h2, h3, hcast, hread]

lemma planLoop_reject (env : PlanEnv) (obstacles : List Obstacle)
    (reference_line : List PathPoint) (init_relative_time : ℚ)
    (c : Candidate) (k : RejKind) (rest : List Candidate) (cnt : Counters)
    (info : RefLineInfo) (n : Nat) (p : PathPoint)
    (hlast : reference_line.getLast? = some p)
    (hk : FirstRejector env obstacles reference_line p.s init_relative_time
      c = some k) :
    planLoop env obstacles reference_line init_relative_time (c :: rest) cnt
        info n =
      planLoop env obstacles reference_line init_relative_time rest
        (k.bump cnt) info n := by
  cases h1 : env.IsValidTrajectoryPair c.pair.2 c.pair.1 with
  | false =>
    simp [FirstRejector, h1] at hk
    subst hk
    rw [planLoop_cons_prefail env obstacles reference_line
      init_relative_time c rest cnt info n h1]
    rfl
  | true =>
    cases h2 : env.IsValidTrajectory (combineCore env reference_line p.s
        c.pair.1 c.pair.2 init_relative_time) with
    | false =>
      simp [FirstRejector, h1, h2] at hk
      subst hk
      rw [planLoop_cons_combined env obstacles reference_line
        init_relative_time c rest cnt info n p hlast h1 h2]
      rfl
    | true =>
      cases h3 : env.InCollision obstacles (combineCore env reference_line
          p.s c.pair.1 c.pair.2 init_relative_time) with
      | false =>
        have hnone : FirstRejector env obstacles reference_line p.s
            init_relative_time c = none :=
          (firstRejector_none_iff env obstacles reference_line p.s
            init_relative_time c).mpr ⟨h1, h2, h3⟩
        rw [hnone] at hk
        exact absurd hk (by simp)
      | true =>
        simp [FirstRejector, h1, h2, h3] at hk
        subst hk
        rw [planLoop_cons_collision env obstacles reference_line
          init_relative_time c rest cnt info n p hlast h1 h2 h3]
        rfl

lemma planLoop_rejected_run (env : PlanEnv) (obstacles : List Obstacle)
    (reference_line : List PathPoint) (init_relative_time : ℚ)
    (p : PathPoint) (hlast : reference_line.getLast? = some p) :
    ∀ (pre : List Candidate),
      (∀ c ∈ pre, (FirstRejector env obstacles reference_line p.s
        init_relative_time c).isSome) →
      ∀ (cands : List Candidate) (cnt : Counters) (info : RefLineInfo)
        (n : Nat),
        planLoop env obstacles reference_line init_relative_time
            (pre ++ cands) cnt info n =
          planLoop env obstacles reference_line init_relative_time cands
            (Counters.add cnt (countRej env obstacles reference_line p.s
              init_relative_time pre)) info n := by
  intro pre
  induction pre with
  | nil =>
    intro _ cands cnt info n
    simp [countRej, counters_add_zero]
  | cons c pre ih =>
    intro hpre cands cnt info n
    obtain ⟨k, hk⟩ := Option.isSome_iff_exists.mp (hpre c (by simp))
    rw [List.cons_append, planLoop_reject env obstacles reference_line
      init_relative_time c k (pre ++ cands) cnt info n p hlast hk]
    rw [ih (fun c' hc' => hpre c' (by simp [hc'])) cands (k.bump cnt) info n]
    congr 1
    rw [countRej, hk]
    rw [bump_add]

lemma planLoop_all_rejected (env : PlanEnv) (obstacles : List Obstacle)
    (reference_line : List PathPoint) (init_relative_time : ℚ)
    (p : PathPoint) (hlast : reference_line.getLast? = some p)
    (cands : List Candidate)
    (hall : ∀ c ∈ cands, (FirstRejector env obstacles reference_line p.s
      init_relative_time c).isSome)
    (cnt : Counters) (info : RefLineInfo) (n : Nat) :
    planLoop env obstacles reference_line init_relative_time cands cnt info
        n =
      some (Counters.add cnt (countRej env obstacles reference_line p.s
        init_relative_time cands), info, n) := by
  have h := planLoop_rejected_run env obstacles reference_line init_relative_time
    p hlast cands hall [] cnt info n
  simpa [planLoop] using h

lemma planLoop_counters_general (env : PlanEnv) (obstacles : List Obstacle)
    (reference_line : List PathPoint) (init_relative_time : ℚ) :
    ∀ (cands : List Candidate) (a b : Counters) (info : RefLineInfo)
      (n : Nat),
      planLoop env obstacles reference_line init_relative_time cands
          (Counters.add a b) info n =
        Option.map (fun r => (Counters.add a r.1, r.2))
          (planLoop env obstacles reference_line init_relative_time cands b
            info n) := by
  intro cands
  induction cands with
  | nil => intro a b info n; simp [planLoop]
  | cons c rest ih =>
    intro a b info n
    cases h1 : env.IsValidTrajectoryPair c.pair.2 c.pair.1 with
    | false =>
      rw [planLoop_cons_prefail env obstacles reference_line
        init_relative_time c rest (Counters.add a b) info n h1]
      rw [planLoop_cons_prefail env obstacles reference_line
        init_relative_time c rest b info n h1]
      have hb : { Counters.add a b with constraint_failure_count :=
          (Counters.add a b).constraint_failure_count + 1 } =
          Counters.add a { b with constraint_failure_count :=
            b.constraint_failure_count + 1 } := by
        cases a; cases b; simp [Counters.add]; omega
      rw [hb]
      exact ih a _ info n
    | true =>
      rw [planLoop_cons, planLoop_cons]
      rw [h1]
      cases hct : CombineTrajectory env reference_line c.pair.1 c.pair.2
          init_relative_time with
      | none => simp
      | some combined =>
        simp only [Bool.not_true, Bool.false_eq_true, if_false]
        cases h2 : env.IsValidTrajectory combined with
        | false =>
          have hb : { Counters.add a b with
              combined_constraint_failure_count :=
                (Counters.add a b).combined_constraint_failure_count + 1 } =
              Counters.add a { b with combined_constraint_failure_count :=
                b.combined_constraint_failure_count + 1 } := by
            cases a; cases b; simp [Counters.add]; omega
          simp only [h2, Bool.not_false, if_true]
          rw [hb]
          exact ih a _ info n
        | true =>
          simp only [h2, Bool.not_true, Bool.false_eq_true, if_false]
          cases h3 : env.InCollision obstacles combined with
          | true =>
            have hb : { Counters.add a b with collision_failure_count :=
                (Counters.add a b).collision_failure_count + 1 } =
                Counters.add a { b with collision_failure_count :=
                  b.collision_failure_count + 1 } := by
              cases a; cases b; simp [Counters.add]; omega
            simp only [if_true]
            rw [hb]
            exact ih a _ info n
          | false =>
            simp only [Bool.false_eq_true, if_false]
            cases c.pair.1.asLattice with
            | none => simp
            | some tgt =>
              cases readPoints combined 10 with
              | none => simp
              | some u => simp

/-- Every candidate list either consists entirely of rejected candidates or
splits at its first surviving candidate. -/
lemma exists_first_survivor (F : Candidate → Option RejKind) :
    ∀ (l : List Candidate),
      (∀ c ∈ l, (F c).isSome) ∨
      ∃ pre c rest, l = pre ++ c :: rest ∧
        (∀ x ∈ pre, (F x).isSome) ∧ F c = none := by
  intro l
  induction l with
  | nil => left; simp
  | cons c rest ih =>
    cases hF : F c with
    | none =>
      right
      exact ⟨[], c, rest, by simp, by simp, hF⟩
    | some k =>
      cases ih with
      | inl h =>
        left
        intro x hx
        cases List.mem_cons.mp hx with
        | inl hxe => rw [hxe, hF]; rfl
        | inr hxm => exact h x hxm
      | inr h =>
        obtain ⟨pre, c', rest', heq, hpre, hc'⟩ := h
        right
        refine ⟨c :: pre, c', rest', by simp [heq], ?_, hc'⟩
        intro x hx
        cases List.mem_cons.mp hx with
        | inl hxe => rw [hxe, hF]; rfl
        | inr hxm => exact hpre x hxm

lemma readPoints_some_iff (l : List TrajectoryPoint) :
    ∀ n, readPoints l n = some () ↔ n ≤ l.length := by
  intro n
  induction n with
  | zero => simp [readPoints]
  | succ k ih =>
    rw [readPoints]
    cases hr : readPoints l k with
    | none =>
      have hk : ¬ (k ≤ l.length) := by
        intro h
        rw [ih.mpr h] at hr
        exact Option.noConfusion hr
      cases hg : l.get? k <;> simp <;> omega
    | some u =>
      cases u
      have hk : k ≤ l.length := ih.mp hr
      cases hg : l.get? k with
      | none =>
        have hlen : l.length ≤ k := List.get?_eq_none.mp hg
        simp
        omega
      | some x =>
        have hlt : k < l.length := by
          rcases Nat.lt_or_ge k l.length with h | h
          · exact h
          · rw [List.get?_eq_none.mpr h] at hg
            exact Option.noConfusion hg
        simp
        omega

lemma readPoints_none_iff (l : List TrajectoryPoint) (n : Nat) :
    readPoints l n = none ↔ l.length < n := by
  cases hr : readPoints l n with
  | none =>
    have hk : ¬ (n ≤ l.length) := by
      intro h
      rw [(readPoints_some_iff l n).mpr h] at hr
      exact Option.noConfusion hr
    simp
    omega
  | some u =>
    cases u
    have hk := (readPoints_some_iff l n).mp hr
    simp
    omega

/-- Helper: the full evaluation of `Plan` when the candidate sequence
splits at its first surviving candidate and the success path hits no
undefined read. -/
lemma plan_first_survivor_eq (env : PlanEnv)
    (planning_init_point : TrajectoryPoint) (obstacles : List Obstacle)
    (reference_line : List PathPoint) (info : RefLineInfo) (p : PathPoint)
    (pre rest : List Candidate) (c : Candidate) (tgt : ℚ × ℚ × ℚ)
    (hlast : reference_line.getLast? = some p)
    (hseq : planCandidates env planning_init_point obstacles
      reference_line = pre ++ c :: rest)
    (hpre : ∀ x ∈ pre, (FirstRejector env obstacles reference_line p.s
      planning_init_point.relative_time x).isSome)
    (hc : FirstRejector env obstacles reference_line p.s
      planning_init_point.relative_time c = none)
    (hcast : c.pair.1.asLattice = some tgt)
    (hread : readPoints (combineCore env reference_line p.s c.pair.1
      c.pair.2 planning_init_point.relative_time) 10 = some ()) :
    Plan env planning_init_point obstacles reference_line info =
      some (Status.ok,
        { info with
          trajectory := some (combineCore env reference_line p.s c.pair.1
            c.pair.2 planning_init_point.relative_time),
          cost := info.priorityCost + c.cost,
          drivable := true },
        countRej env obstacles reference_line p.s
          planning_init_point.relative_time pre) := by
  simp only [Plan]
  rw [hseq]
  rw [planLoop_rejected_run env obstacles reference_line
    planning_init_point.relative_time p hlast pre hpre (c :: rest)
    ⟨0, 0, 0⟩ info 0]
  rw [planLoop_cons_survive_ok env obstacles reference_line
    planning_init_point.relative_time c rest _ info 0 p tgt hlast hc hcast
    hread]
  simp [counters_zero_add]

/-- C1: the search loop pops candidates in the evaluator's order and
applies, in this order, the 1D pair pre-filter, the combination into a 2D
trajectory, the combined-trajectory constraint check, and the collision
check (the order is the one hard-coded in `FirstRejector`); the first
popped pair surviving all filters is installed and the result does not
depend on the candidates ranked after it (`rest` does not occur in the
conclusion). -/
theorem plan_search_first_acceptable (env : PlanEnv)
    (planning_init_point : TrajectoryPoint) (obstacles : List Obstacle)
    (reference_line : List PathPoint) (info : RefLineInfo) (p : PathPoint)
    (pre rest : List Candidate) (c : Candidate) (tgt : ℚ × ℚ × ℚ)
    (hlast : reference_line.getLast? = some p)
    (hseq : planCandidates env planning_init_point obstacles
      reference_line = pre ++ c :: rest)
    (hpre : ∀ x ∈ pre, (FirstRejector env obstacles reference_line p.s
      planning_init_point.relative_time x).isSome)
    (hc : FirstRejector env obstacles reference_line p.s
      planning_init_point.relative_time c = none)
    (hcast : c.pair.1.asLattice = some tgt)
    (hread : readPoints (combineCore env reference_line p.s c.pair.1
      c.pair.2 planning_init_point.relative_time) 10 = some ()) :
    Plan env planning_init_point obstacles reference_line info =
      some (Status.ok,
        { info with
          trajectory := some (combineCore env reference_line p.s c.pair.1
            c.pair.2 planning_init_point.relative_time),
          cost := info.priorityCost + c.cost,
          drivable := true },
        countRej env obstacles reference_line p.s
          planning_init_point.relative_time pre) :=
  plan_first_survivor_eq env planning_init_point obstacles reference_line
    info p pre rest c tgt hlast hseq hpre hc hcast hread

/-- C2: whenever a planning cycle completes (none of the implicit undefined
reads of C8 through C10 is hit, which the hypotheses rule out), `Plan`
returns exactly one of two outcomes: a success status with a trajectory
installed when some candidate survives all filters, or the typed failure
`PLANNING_ERROR` with message "No feasible trajectories", the info state
untouched, and the three rejection counters tallying every rejection, when
every candidate was rejected. -/
theorem plan_two_outcomes (env : PlanEnv)
    (planning_init_point : TrajectoryPoint) (obstacles : List Obstacle)
    (reference_line : List PathPoint) (info : RefLineInfo) (p : PathPoint)
    (hlast : reference_line.getLast? = some p)
    (hsafe : ∀ c ∈ planCandidates env planning_init_point obstacles
        reference_line,
      FirstRejector env obstacles reference_line p.s
          planning_init_point.relative_time c = none →
        c.pair.1.asLattice.isSome = true ∧
        readPoints (combineCore env reference_line p.s c.pair.1 c.pair.2
          planning_init_point.relative_time) 10 = some ()) :
    ∃ r, Plan env planning_init_point obstacles reference_line info =
        some r ∧
      (((∃ c ∈ planCandidates env planning_init_point obstacles
            reference_line,
          FirstRejector env obstacles reference_line p.s
            planning_init_point.relative_time c = none) ∧
        r.1 = Status.ok ∧ r.2.1.trajectory.isSome = true ∧
        r.2.1.drivable = true) ∨
       ((∀ c ∈ planCandidates env planning_init_point obstacles
            reference_line,
          (FirstRejector env obstacles reference_line p.s
            planning_init_point.relative_time c).isSome) ∧
        r.1 = ⟨ErrorCode.PLANNING_ERROR, "No feasible trajectories"⟩ ∧
        r.2.1 = info ∧
        r.2.2 = countRej env obstacles reference_line p.s
          planning_init_point.relative_time (planCandidates env
            planning_init_point obstacles reference_line))) := by
  cases exists_first_survivor
      (FirstRejector env obstacles reference_line p.s
        planning_init_point.relative_time)
      (planCandidates env planning_init_point obstacles reference_line) with
  | inl hall =>
    refine ⟨(⟨ErrorCode.PLANNING_ERROR, "No feasible trajectories"⟩, info,
      countRej env obstacles reference_line p.s
        planning_init_point.relative_time (planCandidates env
          planning_init_point obstacles reference_line)), ?_, ?_⟩
    · simp only [Plan]
      rw [planLoop_all_rejected env obstacles reference_line
        planning_init_point.relative_time p hlast _ hall ⟨0, 0, 0⟩ info 0]
      simp [counters_zero_add]
    · right
      exact ⟨hall, rfl, rfl, rfl⟩
  | inr hsplit =>
    obtain ⟨pre, c, rest, heq, hpre, hc⟩ := hsplit
    have hcmem : c ∈ planCandidates env planning_init_point obstacles
        reference_line := by
      rw [heq]
      simp
    obtain ⟨hcast', hread⟩ := hsafe c hcmem hc
    obtain ⟨tgt, hcast⟩ := Option.isSome_iff_exists.mp hcast'
    refine ⟨(Status.ok,
      { info with
        trajectory := some (combineCore env reference_line p.s c.pair.1
          c.pair.2 planning_init_point.relative_time),
        cost := info.priorityCost + c.cost,
        drivable := true },
      countRej env obstacles reference_line p.s
        planning_init_point.relative_time pre), ?_, ?_⟩
    · simp only [Plan]
      rw [heq]
      rw [planLoop_rejected_run env obstacles reference_line
        planning_init_point.relative_time p hlast pre hpre (c :: rest)
        ⟨0, 0, 0⟩ info 0]
      rw [planLoop_cons_survive_ok env obstacles reference_line
        planning_init_point.relative_time c rest _ info 0 p tgt hlast hc
        hcast hread]
      simp [counters_zero_add]
    · left
      exact ⟨⟨c, hcmem, hc⟩, rfl, rfl, rfl⟩

/-- C5: a rejected candidate bumps exactly the counter matching its first
rejecting filter (the bump raises the counter total by exactly one) and
the loop continues on the remaining sequence with everything else
unchanged — the pair is popped exactly once and the rejection changes only
the counters; moreover the counters never influence the rest of the loop's
outcome: the non-counter components of the result are the same for every
starting counter value. -/
theorem plan_rejection_frame (env : PlanEnv) (obstacles : List Obstacle)
    (reference_line : List PathPoint) (init_relative_time : ℚ)
    (c : Candidate) (k : RejKind) (rest : List Candidate) (cnt : Counters)
    (info : RefLineInfo) (n : Nat) (p : PathPoint)
    (hlast : reference_line.getLast? = some p)
    (hk : FirstRejector env obstacles reference_line p.s init_relative_time
      c = some k) :
    planLoop env obstacles reference_line init_relative_time (c :: rest)
        cnt info n =
      planLoop env obstacles reference_line init_relative_time rest
        (k.bump cnt) info n ∧
    (k.bump cnt).constraint_failure_count +
        (k.bump cnt).combined_constraint_failure_count +
        (k.bump cnt).collision_failure_count =
      cnt.constraint_failure_count + cnt.combined_constraint_failure_count +
        cnt.collision_failure_count + 1 ∧
    (∀ (cands : List Candidate) (a : Counters),
      planLoop env obstacles reference_line init_relative_time cands a info
          n =
        Option.map (fun r => (Counters.add a r.1, r.2))
          (planLoop env obstacles reference_line init_relative_time cands
            ⟨0, 0, 0⟩ info n)) := by
  refine ⟨?_, ?_, ?_⟩
  · exact planLoop_reject env obstacles reference_line init_relative_time c
      k rest cnt info n p hlast hk
  · cases k <;> simp [RejKind.bump] <;> omega
  · intro cands a
    have h := planLoop_counters_general env obstacles reference_line
      init_relative_time cands a ⟨0, 0, 0⟩ info n
    rwa [counters_add_zero] at h

/-- C7: when a candidate pair is selected, the cost recorded on the
reference-line result equals the reference-path priority cost plus the
selected pair's total cost as read from the evaluator before the pop
(`c.cost` is the value of `top_trajectory_pair_cost` for the popped
candidate). -/
theorem plan_selected_cost (env : PlanEnv)
    (planning_init_point : TrajectoryPoint) (obstacles : List Obstacle)
    (reference_line : List PathPoint) (info : RefLineInfo) (p : PathPoint)
    (pre rest : List Candidate) (c : Candidate) (tgt : ℚ × ℚ × ℚ)
    (hlast : reference_line.getLast? = some p)
    (hseq : planCandidates env planning_init_point obstacles
      reference_line = pre ++ c :: rest)
    (hpre : ∀ x ∈ pre, (FirstRejector env obstacles reference_line p.s
      planning_init_point.relative_time x).isSome)
    (hc : FirstRejector env obstacles reference_line p.s
      planning_init_point.relative_time c = none)
    (hcast : c.pair.1.asLattice = some tgt)
    (hread : readPoints (combineCore env reference_line p.s c.pair.1
      c.pair.2 planning_init_point.relative_time) 10 = some ()) :
    ∃ r, Plan env planning_init_point obstacles reference_line info =
        some r ∧
      r.2.1.cost = info.priorityCost + c.cost := by
  refine ⟨(Status.ok,
    { info with
      trajectory := some (combineCore env reference_line p.s c.pair.1
        c.pair.2 planning_init_point.relative_time),
      cost := info.priorityCost + c.cost,
      drivable := true },
    countRej env obstacles reference_line p.s
      planning_init_point.relative_time pre), ?_, rfl⟩
  simp only [Plan]
  rw [hseq]
  rw [planLoop_rejected_run env obstacles reference_line
    planning_init_point.relative_time p hlast pre hpre (c :: rest)
    ⟨0, 0, 0⟩ info 0]
  rw [planLoop_cons_survive_ok env obstacles reference_line
    planning_init_point.relative_time c rest _ info 0 p tgt hlast hc hcast
    hread]
  simp [counters_zero_add]

/-- C8 counterexample: on an empty (malformed) discretized reference line,
`Plan` does not abort with a configuration failure.  With a top-ranked
candidate that passes the pre-filter, the cycle proceeds into
`CombineTrajectory` on the empty reference line, where reading the last
path point's arc-length (`reference_line.back()`) is undefined — modelled
as `none` — so no configuration-failure status (and indeed no status at
all) is returned; the second conjunct pinpoints the undefined read inside
`CombineTrajectory` itself. -/
theorem plan_config_counterexample :
    Plan (wEnv 1 1 [candOk]) wInit [] [] wInfo = none ∧
    CombineTrajectory (wEnv 1 1 [candOk]) [] rampCurve flatCurve 0 =
      none := ⟨rfl, rfl⟩

/-- C8 amended: `Plan` performs no validation of the discretized reference
path.  It never returns a configuration-failure status on any input (every
returned status is `OK` or `PLANNING_ERROR`), and on an empty reference
line whose top-ranked candidate passes the 1D pair pre-filter the cycle
proceeds through matching and sampling into `CombineTrajectory`, whose
read of the last path point's arc-length is undefined on the empty line
(the run is `none` rather than any abort status). -/
theorem plan_no_config_failure (env : PlanEnv)
    (planning_init_point : TrajectoryPoint) (obstacles : List Obstacle)
    (info : RefLineInfo) (c : Candidate) (rest : List Candidate)
    (env2 : PlanEnv) (planning_init_point2 : TrajectoryPoint)
    (obstacles2 : List Obstacle) (reference_line2 : List PathPoint)
    (info2 : RefLineInfo) (r2 : Status × RefLineInfo × Counters)
    (hseq : planCandidates env planning_init_point obstacles [] = c :: rest)
    (hpair : env.IsValidTrajectoryPair c.pair.2 c.pair.1 = true)
    (h2 : Plan env2 planning_init_point2 obstacles2 reference_line2 info2 =
      some r2) :
    Plan env planning_init_point obstacles [] info = none ∧
    r2.1.code ≠ ErrorCode.CONFIG_ERROR := by
  constructor
  · simp only [Plan]
    rw [hseq, planLoop_cons, hpair]
    simp [CombineTrajectory]
  · simp only [Plan] at h2
    cases hl : planLoop env2 obstacles2 reference_line2
        planning_init_point2.relative_time
        (planCandidates env2 planning_init_point2 obstacles2
          reference_line2) ⟨0, 0, 0⟩ info2 0 with
    | none =>
      rw [hl] at h2
      exact absurd h2 (by simp)
    | some t =>
      obtain ⟨cnt, info', n⟩ := t
      simp only [hl] at h2
      by_cases hn : 0 < n
      · rw [if_pos hn] at h2
        injection h2 with h2'
        rw [← h2']
        simp [Status.ok]
      · rw [if_neg hn] at h2
        injection h2 with h2'
        rw [← h2']
        simp

/-- C9: on the success path, `Plan` unconditionally downcasts the selected
pair's longitudinal curve to the concrete lattice curve type and reads its
target attributes through the resulting pointer; the failed-cast branch
only logs and does not skip the reads.  With the first surviving candidate
`c` (and enough combined points for the later debug reads), the cycle
completes without the null-pointer dereference exactly when `c`'s
longitudinal curve is of the concrete lattice type: `Plan` is the
undefined run `none` if and only if the downcast yields a null pointer. -/
theorem plan_downcast_precondition (env : PlanEnv)
    (planning_init_point : TrajectoryPoint) (obstacles : List Obstacle)
    (reference_line : List PathPoint) (info : RefLineInfo) (p : PathPoint)
    (pre rest : List Candidate) (c : Candidate)
    (hlast : reference_line.getLast? = some p)
    (hseq : planCandidates env planning_init_point obstacles
      reference_line = pre ++ c :: rest)
    (hpre : ∀ x ∈ pre, (FirstRejector env obstacles reference_line p.s
      planning_init_point.relative_time x).isSome)
    (hc : FirstRejector env obstacles reference_line p.s
      planning_init_point.relative_time c = none)
    (hread : readPoints (combineCore env reference_line p.s c.pair.1
      c.pair.2 planning_init_point.relative_time) 10 = some ()) :
    (Plan env planning_init_point obstacles reference_line info = none) ↔
      c.pair.1.asLattice = none := by
  constructor
  · intro hnone
    cases hcast : c.pair.1.asLattice with
    | none => rfl
    | some tgt =>
      have hsome := plan_first_survivor_eq env planning_init_point
        obstacles reference_line info p pre rest c tgt hlast hseq hpre hc
        hcast hread
      rw [hsome] at hnone
      exact absurd hnone (by simp)
  · intro hcast
    simp only [Plan]
    rw [hseq]
    rw [planLoop_rejected_run env obstacles reference_line
      planning_init_point.relative_time p hlast pre hpre (c :: rest)
      ⟨0, 0, 0⟩ info 0]
    rw [planLoop_cons_survive_castfail env obstacles reference_line
      planning_init_point.relative_time c rest _ info 0 p hlast hc hcast]

/-- C10: on the success path, `Plan` reads the first ten points of the
selected combined trajectory without checking its length, so with the
first surviving candidate `c` (whose downcast succeeds) the cycle is
well-defined exactly when the combined trajectory has at least ten points:
`Plan` is the undefined run `none` if and only if the combined trajectory
is shorter than ten points — which `CombineTrajectory` can legitimately
produce when the longitudinal position runs off the reference path's
end. -/
theorem plan_debug_read_precondition (env : PlanEnv)
    (planning_init_point : TrajectoryPoint) (obstacles : List Obstacle)
    (reference_line : List PathPoint) (info : RefLineInfo) (p : PathPoint)
    (pre rest : List Candidate) (c : Candidate) (tgt : ℚ × ℚ × ℚ)
    (hlast : reference_line.getLast? = some p)
    (hseq : planCandidates env planning_init_point obstacles
      reference_line = pre ++ c :: rest)
    (hpre : ∀ x ∈ pre, (FirstRejector env obstacles reference_line p.s
      planning_init_point.relative_time x).isSome)
    (hc : FirstRejector env obstacles reference_line p.s
      planning_init_point.relative_time c = none)
    (hcast : c.pair.1.asLattice = some tgt) :
    (Plan env planning_init_point obstacles reference_line info = none) ↔
      (combineCore env reference_line p.s c.pair.1 c.pair.2
        planning_init_point.relative_time).length < 10 := by
  cases hr : readPoints (combineCore env reference_line p.s c.pair.1
      c.pair.2 planning_init_point.relative_time) 10 with
  | none =>
    have hlen := (readPoints_none_iff _ 10).mp hr
    constructor
    · intro _
      exact hlen
    · intro _
      simp only [Plan]
      rw [hseq]
      rw [planLoop_rejected_run env obstacles reference_line
        planning_init_point.relative_time p hlast pre hpre (c :: rest)
        ⟨0, 0, 0⟩ info 0]
      rw [planLoop_cons_survive_readfail env obstacles reference_line
        planning_init_point.relative_time c rest _ info 0 p tgt hlast hc
        hcast hr]
  | some u =>
    cases u
    have hlen := (readPoints_some_iff _ 10).mp hr
    have hsome := plan_first_survivor_eq env planning_init_point
      obstacles reference_line info p pre rest c tgt hlast hseq hpre hc
      hcast hr
    constructor
    · intro hnone
      rw [hsome] at hnone
      exact absurd hnone (by simp)
    · intro hlt
      omega

lemma combinePoints_length_eq (env : PlanEnv)
    (reference_line : List PathPoint) (s_ref_max : ℚ) (lon lat : Curve1d)
    (init_relative_time : ℚ) :
    ∀ k i,
      (∀ j, j < k → ¬(lon.Evaluate 0 (((i + j : ℕ) : ℚ) *
        env.trajectory_time_resolution) > s_ref_max)) →
      (combinePoints env reference_line s_ref_max lon lat init_relative_time
        i k).length = k := by
  intro k
  induction k with
  | zero => intro i _; simp [combinePoints]
  | succ k ih =>
    intro i hnb
    rw [combinePoints]
    have h0 : ¬(lon.Evaluate 0 ((i : ℚ) * env.trajectory_time_resolution) >
        s_ref_max) := by
      have := hnb 0 (by omega)
      simpa using this
    rw [if_neg h0]
    simp only [List.length_cons]
    rw [ih (i + 1) ?_]
    intro j hj
    have h := hnb (j + 1) (by omega)
    have harith : i + (j + 1) = (i + 1) + j := by omega
    rw [harith] at h
    exact h

lemma combineCore_length_eq (env : PlanEnv)
    (reference_line : List PathPoint) (s_ref_max : ℚ) (lon lat : Curve1d)
    (init_relative_time : ℚ) (N : Nat)
    (hdt : 0 < env.trajectory_time_resolution)
    (hN : Nat.ceil
      (env.planned_trajectory_time / env.trajectory_time_resolution) = N)
    (hnb : ∀ j, j < N → ¬(lon.Evaluate 0 ((j : ℚ) *
      env.trajectory_time_resolution) > s_ref_max)) :
    (combineCore env reference_line s_ref_max lon lat
      init_relative_time).length = N := by
  rw [combineCore_eq env reference_line s_ref_max lon lat
    init_relative_time hdt, hN]
  exact combinePoints_length_eq env reference_line s_ref_max lon lat
    init_relative_time N 0 (fun j hj => by simpa using hnb j hj)

lemma w2_len :
    (combineCore (wEnv 2 1 []) wRefline 100 rampCurve flatCurve 0).length =
      2 := by
  apply combineCore_length_eq
  · decide
  · show Nat.ceil ((2 : ℚ) / 1) = 2
    norm_num
  · intro j hj
    show ¬(rampCurve.Evaluate 0 ((j : ℚ) * 1) > (100 : ℚ))
    simp [rampCurve, Curve1d.Evaluate]
    have hq : (j : ℚ) < 2 := by exact_mod_cast hj
    linarith

lemma w2_pos :
    0 < (combineCore (wEnv 2 1 []) wRefline 100 rampCurve flatCurve
      0).length := by
  rw [w2_len]
  omega

lemma w2_len_t7 :
    (combineCore (wEnv 2 1 []) wRefline 100 rampCurve flatCurve 7).length =
      2 := by
  apply combineCore_length_eq
  · decide
  · show Nat.ceil ((2 : ℚ) / 1) = 2
    norm_num
  · intro j hj
    show ¬(rampCurve.Evaluate 0 ((j : ℚ) * 1) > (100 : ℚ))
    simp [rampCurve, Curve1d.Evaluate]
    have hq : (j : ℚ) < 2 := by exact_mod_cast hj
    linarith

lemma w2_pos_t7 :
    0 < (combineCore (wEnv 2 1 []) wRefline 100 rampCurve flatCurve
      7).length := by
  rw [w2_len_t7]
  omega

lemma w10_len :
    (combineCore (wEnv 10 1 [candOk]) wRefline farPathPoint.s candOk.pair.1
      candOk.pair.2 wInit.relative_time).length = 10 := by
  apply combineCore_length_eq
  · decide
  · show Nat.ceil ((10 : ℚ) / 1) = 10
    norm_num
  · intro j hj
    show ¬(rampCurve.Evaluate 0 ((j : ℚ) * 1) > (100 : ℚ))
    simp [rampCurve, Curve1d.Evaluate]
    have hq : (j : ℚ) < 10 := by exact_mod_cast hj
    linarith

lemma w10_read :
    readPoints (combineCore (wEnv 10 1 [candOk]) wRefline farPathPoint.s
      candOk.pair.1 candOk.pair.2 wInit.relative_time) 10 = some () := by
  rw [readPoints_some_iff, w10_len]

lemma w10_other_len :
    (combineCore (wEnv 10 1 [candOther]) wRefline farPathPoint.s
      candOther.pair.1 candOther.pair.2 wInit.relative_time).length =
      10 := by
  apply combineCore_length_eq
  · decide
  · show Nat.ceil ((10 : ℚ) / 1) = 10
    norm_num
  · intro j hj
    show ¬(otherCurve.Evaluate 0 ((j : ℚ) * 1) > (100 : ℚ))
    simp [otherCurve, Curve1d.Evaluate]

lemma w10_other_read :
    readPoints (combineCore (wEnv 10 1 [candOther]) wRefline farPathPoint.s
      candOther.pair.1 candOther.pair.2 wInit.relative_time) 10 =
      some () := by
  rw [readPoints_some_iff, w10_other_len]

lemma w2_cand_len :
    (combineCore (wEnv 2 1 [candOk]) wRefline farPathPoint.s candOk.pair.1
      candOk.pair.2 wInit.relative_time).length = 2 := by
  apply combineCore_length_eq
  · decide
  · show Nat.ceil ((2 : ℚ) / 1) = 2
    norm_num
  · intro j hj
    show ¬(rampCurve.Evaluate 0 ((j : ℚ) * 1) > (100 : ℚ))
    simp [rampCurve, Curve1d.Evaluate]
    have hq : (j : ℚ) < 2 := by exact_mod_cast hj
    linarith

/-- Witness for C3 at a concrete input: horizon 2, resolution 1, a ramp
longitudinal curve that never leaves the reference line. -/
theorem combine_horizon_witness :
    (combineCore (wEnv 2 1 []) wRefline 100 rampCurve flatCurve 0).length ≤
      2 :=
  (combine_horizon (wEnv 2 1 []) wRefline rampCurve flatCurve 0
    farPathPoint 2
    (combineCore (wEnv 2 1 []) wRefline 100 rampCurve flatCurve 0)
    (by decide) (by simp : (2 : ℚ) = ((2 : ℕ) : ℚ) * 1) rfl rfl).1

/-- Witness for C4 at a concrete input: the first combined point is the
loop body evaluated at time parameter zero. -/
theorem combine_lateral_param_witness :
    (combineCore (wEnv 2 1 []) wRefline 100 rampCurve flatCurve 0).get
        ⟨0, w2_pos⟩ =
      (let t_param : ℚ := ((0 : ℕ) : ℚ) *
        (wEnv 2 1 []).trajectory_time_resolution
       let s := rampCurve.Evaluate 0 t_param
       let s_param := s - rampCurve.Evaluate 0 0
       let d := flatCurve.Evaluate 0 s_param
       let d_prime := flatCurve.Evaluate 1 s_param
       let d_pprime := flatCurve.Evaluate 2 s_param
       let m := (wEnv 2 1 []).MatchToReferenceLineS wRefline s
       let c := (wEnv 2 1 []).frenet_to_cartesian m.s m.x m.y m.theta
           m.kappa m.dkappa
           (m.s, rampCurve.Evaluate 1 t_param, rampCurve.Evaluate 2 t_param)
           (d, d_prime, d_pprime)
       { x := c.x, y := c.y, theta := c.theta, kappa := c.kappa, v := c.v,
         a := c.a, relative_time := t_param + 0 }) :=
  combine_lateral_param (wEnv 2 1 []) wRefline rampCurve flatCurve 0
    (combineCore (wEnv 2 1 []) wRefline 100 rampCurve flatCurve 0)
    (by decide) rfl 0 w2_pos

/-- Witness for C6 at a concrete input: with init relative time 7, the
first combined point's relative time is 7. -/
theorem combine_first_relative_time_witness :
    ((combineCore (wEnv 2 1 []) wRefline 100 rampCurve flatCurve 7).get
        ⟨0, w2_pos_t7⟩).relative_time = 7 :=
  combine_first_relative_time (wEnv 2 1 []) wRefline rampCurve flatCurve 7
    (combineCore (wEnv 2 1 []) wRefline 100 rampCurve flatCurve 7)
    (by decide) rfl w2_pos_t7

/-- Witness for C1 at a concrete input: one surviving candidate, installed
with its combined trajectory, the priority cost plus the pair cost, and
the empty rejection tally. -/
theorem plan_search_first_acceptable_witness :
    Plan (wEnv 10 1 [candOk]) wInit [] wRefline wInfo =
      some (Status.ok,
        { wInfo with
          trajectory := some (combineCore (wEnv 10 1 [candOk]) wRefline
            farPathPoint.s candOk.pair.1 candOk.pair.2
            wInit.relative_time),
          cost := wInfo.priorityCost + candOk.cost,
          drivable := true },
        countRej (wEnv 10 1 [candOk]) [] wRefline farPathPoint.s
          wInit.relative_time []) :=
  plan_search_first_acceptable (wEnv 10 1 [candOk]) wInit [] wRefline wInfo
    farPathPoint [] [] candOk (10, 1, 10) rfl rfl (by simp) rfl rfl w10_read

/-- Witness for C2 at a concrete input: an environment rejecting every
candidate still completes with a returned result. -/
theorem plan_two_outcomes_witness :
    (Plan wEnvReject wInit [] wRefline wInfo).isSome = true := by
  obtain ⟨r, hr, _⟩ := plan_two_outcomes wEnvReject wInit [] wRefline wInfo
    farPathPoint rfl (by decide)
  rw [hr]
  rfl

/-- Witness for C5 at a concrete input: a pre-filter rejection pops the
candidate once and bumps exactly the constraint counter. -/
theorem plan_rejection_frame_witness :
    planLoop wEnvReject [] wRefline 0 [candOk] ⟨0, 0, 0⟩ wInfo 0 =
      planLoop wEnvReject [] wRefline 0 []
        (RejKind.constraint.bump ⟨0, 0, 0⟩) wInfo 0 :=
  (plan_rejection_frame wEnvReject [] wRefline 0 candOk RejKind.constraint
    [] ⟨0, 0, 0⟩ wInfo 0 farPathPoint rfl rfl).1

/-- Witness for C7 at a concrete input: the selected cycle returns a
result. -/
theorem plan_selected_cost_witness :
    (Plan (wEnv 10 1 [candOk]) wInit [] wRefline wInfo).isSome = true := by
  obtain ⟨r, hr, _⟩ := plan_selected_cost (wEnv 10 1 [candOk]) wInit []
    wRefline wInfo farPathPoint [] [] candOk (10, 1, 10) rfl rfl (by simp)
    rfl rfl w10_read
  rw [hr]
  rfl

/-- Witness for the amended C8 at a concrete input: the empty reference
line yields the undefined run, and a completed run's status code is not a
configuration failure. -/
theorem plan_no_config_failure_witness :
    Plan (wEnv 1 1 [candOk]) wInit [] [] wInfo = none ∧
      ((⟨ErrorCode.PLANNING_ERROR, "No feasible trajectories"⟩ : Status),
        wInfo, (⟨0, 0, 0⟩ : Counters)).1.code ≠ ErrorCode.CONFIG_ERROR :=
  plan_no_config_failure (wEnv 1 1 [candOk]) wInit [] wInfo candOk []
    (wEnv 1 1 []) wInit [] wRefline wInfo
    (⟨ErrorCode.PLANNING_ERROR, "No feasible trajectories"⟩, wInfo,
      ⟨0, 0, 0⟩) rfl rfl rfl

/-- Witness for C9 at a concrete input: a surviving candidate whose
longitudinal curve is not of the lattice type makes the cycle hit the
null-pointer dereference. -/
theorem plan_downcast_precondition_witness :
    Plan (wEnv 10 1 [candOther]) wInit [] wRefline wInfo = none :=
  (plan_downcast_precondition (wEnv 10 1 [candOther]) wInit [] wRefline
    wInfo farPathPoint [] [] candOther rfl rfl (by simp) rfl
    w10_other_read).mpr rfl

/-- Witness for C10 at a concrete input: a two-point combined trajectory
(2-second horizon at 1-second resolution) makes the ten-point debug read
undefined. -/
theorem plan_debug_read_precondition_witness :
    Plan (wEnv 2 1 [candOk]) wInit [] wRefline wInfo = none :=
  (plan_debug_read_precondition (wEnv 2 1 [candOk]) wInit [] wRefline wInfo
    farPathPoint [] [] candOk (10, 1, 10) rfl rfl (by simp) rfl rfl).mpr
    (by rw [w2_cand_len]; omega)

end LatticePlanner
